import Mathlib

/-!
Verification of the vault transaction solver of the yearnX repository.

This file gives a shallow embedding of the deposit / withdraw / approval
hooks (useVaultDeposit, useVaultWithdraw, useApprove) of the repository.
Each hook body is translated into a pure Lean function:
- JavaScript bigint values are modelled as Int (arbitrary precision, signed,
  division truncating toward zero via jsDiv below);
- values read from chain (useReadContract / readContract / readContracts
  results) and the outcomes of transaction sends are passed in explicitly
  as an environment record, since the hooks treat them as opaque inputs;
- React useState state is passed and returned explicitly;
- thrown exceptions are modelled with Except String;
- the network calls issued by a run are collected in a list, in program
  order, so that statements of the form "no network call is issued" can be
  expressed;
- the post-send cache refreshes (refetchMaxDepositForUser,
  refetchMaxWithdrawForUser, refetchBalanceOf) are not recorded in the call
  list: they occur only after the send on paths that already issued the
  send, and no statement below depends on them.  The allowance refetch of
  useApprove IS recorded (field refetched) because a claim mentions it.
-/

/-- Addresses are modelled abstractly: a numeric identity together with the
three predicates the hooks apply to them.  isAddress, isEthAddress and
isZeroAddress come from the web3 utility library (outside this repository);
per its documented behaviour isAddress checks well-formedness, isEthAddress
recognises the native-asset placeholder address and isZeroAddress the zero
address. -/
structure Addr where
  val : Nat
  valid : Bool
  isEth : Bool
  isZero : Bool
deriving DecidableEq, Repr

def isAddress (a : Addr) : Bool := a.valid

def isEthAddress (a : Addr) : Bool := a.isEth

def isZeroAddress (a : Addr) : Bool := a.isZero

/-- isAddress applied to an optional value (isAddress(undefined) is false in
the utility library). -/
def isAddressOpt : Option Addr → Bool
  | none => false
  | some a => isAddress a

/-- toBigInt from the utility library: undefined becomes 0n. -/
def toBigInt : Option Int → Int
  | none => 0
  | some v => v

/-- JavaScript truthiness of an optional bigint: defined and nonzero. -/
def jsTruthyOpt : Option Int → Bool
  | none => false
  | some v => decide (v ≠ 0)

/-- JavaScript bigint division: exact integer division truncating toward
zero (Int.tdiv).  A zero divisor is mapped to 0; no path proved below ever
divides by zero. -/
def jsDiv (a b : Int) : Int := Int.tdiv a b

/-- maxUint256 from viem. -/
def maxUint256 : Int := 2 ^ 256 - 1

/-! ### useApprove (part_001, lines 203-385) -/

/-- State owned by the useApprove hook: the isApproving flag and the stored
permit signature / permit allowance pair. -/
structure ApproveState where
  isApproving : Bool
  permitSignature : Option Nat
  permitAllowance : Option Int
deriving DecidableEq, Repr

/-- canApprove (part_001 lines 230-235): not the native asset, both
addresses well-formed, amount strictly positive. -/
def canApprove (tokenToApprove spender : Addr) (amountToApprove : Int) : Bool :=
  if isEthAddress tokenToApprove then false
  else isAddress tokenToApprove && isAddress spender && decide (0 < amountToApprove)

/-- isApproved (part_001 lines 245-253).  The source guard is
(permitSignature && permitAllowance): the signature must be defined and the
permit allowance defined and nonzero (bigint truthiness); in that case the
permit allowance alone is compared with the requested amount.  Otherwise
(allowance && allowance >= amount) || false. -/
def isApproved (tokenToApprove : Addr) (permitSignature : Option Nat)
    (permitAllowance : Option Int) (allowance : Option Int) (amountToApprove : Int) : Bool :=
  if isEthAddress tokenToApprove then true
  else if permitSignature.isSome && jsTruthyOpt permitAllowance then
    decide (amountToApprove ≤ toBigInt permitAllowance)
  else jsTruthyOpt allowance && decide (amountToApprove ≤ toBigInt allowance)

/-- Result of one run of onApprove: the resolved boolean, the state of the
hook afterwards, which callbacks were invoked, and whether the allowance
read was refetched. -/
structure ApproveRun where
  result : Bool
  state : ApproveState
  onSuccessCalled : Bool
  onFailureCalled : Bool
  refetched : Bool
deriving DecidableEq, Repr

/-- onApprove (part_001 lines 294-363).  Arguments owner, provider, chainID
and deadline only parameterize the external signing / sending calls, whose
outcomes enter here as permitSupported, signResult and approveResult; they
are therefore not repeated.  signResult = none models signPermit returning
null (user rejection or unsupported token); the source contains no throw
site, which is reflected by this function being total with a plain Bool
result. -/
def onApprove (tokenToApprove spender : Addr) (amountToApprove : Int)
    (shouldUsePermit permitSupported : Bool) (signResult : Option Nat)
    (approveResult : Bool) (s : ApproveState) : ApproveRun :=
  if !(canApprove tokenToApprove spender amountToApprove) then
    { result := false, state := s,
      onSuccessCalled := false, onFailureCalled := false, refetched := false }
  else if shouldUsePermit && permitSupported then
    match signResult with
    | none =>
      { result := false,
        state := { isApproving := false, permitSignature := none, permitAllowance := none },
        onSuccessCalled := false, onFailureCalled := true, refetched := true }
    | some sig =>
      { result := true,
        state := { isApproving := false, permitSignature := some sig,
                   permitAllowance := some amountToApprove },
        onSuccessCalled := true, onFailureCalled := false, refetched := true }
  else
    { result := approveResult,
      state := { isApproving := false, permitSignature := none, permitAllowance := none },
      onSuccessCalled := approveResult, onFailureCalled := !approveResult, refetched := true }

/-- onClearPermit (part_001 lines 370-373). -/
def onClearPermit (s : ApproveState) : ApproveState :=
  { s with permitSignature := none, permitAllowance := none }

/-- States of the useApprove hook reachable from its initial state by any
sequence of onApprove and onClearPermit invocations, with arbitrary
arguments and external outcomes at every step. -/
inductive ApproveReachable : ApproveState → Prop
  | init : ApproveReachable ⟨false, none, none⟩
  | approve (tokenToApprove spender : Addr) (amountToApprove : Int)
      (shouldUsePermit permitSupported : Bool) (signResult : Option Nat)
      (approveResult : Bool) (s : ApproveState) :
      ApproveReachable s →
      ApproveReachable (onApprove tokenToApprove spender amountToApprove
        shouldUsePermit permitSupported signResult approveResult s).state
  | clear (s : ApproveState) : ApproveReachable s → ApproveReachable (onClearPermit s)

/-! ### useVaultDeposit (part_001, lines 453-817) -/

inductive VaultVersion
  | LEGACY
  | ERC4626
deriving DecidableEq, Repr

/-- The options object of the ERC-4626 variant of the deposit arguments.
For LEGACY arguments only disableSafeBatch exists; the LEGACY code path
returns before any other field is read, so a single record is faithful. -/
structure DepositOptions where
  disableSafeBatch : Bool
  useRouter : Bool
  routerAddress : Addr
  minOutSlippage : Int
  permitSignature : Option Nat
deriving DecidableEq, Repr

structure DepositArgs where
  tokenToDeposit : Addr
  vault : Addr
  owner : Addr
  receiver : Option Addr
  amountToDeposit : Int
  chainID : Nat
  version : VaultVersion
  options : Option DepositOptions
deriving DecidableEq, Repr

/-- Terminal status reached by the Safe transaction poll loop. -/
inductive SafeStatus
  | SUCCESS
  | FAILED
  | CANCELLED
deriving DecidableEq, Repr

/-- External inputs of one onDeposit run: wallet context, chain reads and
the outcomes of the external sends. -/
structure DepositEnv where
  isWalletSafe : Bool
  maxDepositForUser : Option Int
  previewDeposit : Option Int
  availableDepositLimit : Option Int
  wagmiProviderAddress : Option Addr
  routerAllowance : Int
  sendResult : Bool
  safeSendThrows : Bool
  safeTxStatus : SafeStatus
deriving DecidableEq, Repr

/-- Calls placed inside the Safe batch (part_001 lines 589-609). -/
inductive BatchCall
  | approve (token vault : Addr) (amount : Int)
  | deposit (vault : Addr) (amount : Int) (receiver : Addr)
deriving DecidableEq, Repr

/-- Calls placed inside the router multicall (part_001 lines 697-751). -/
inductive RouterCall
  | approveRouter (token vault : Addr)
  | selfPermit (token : Addr) (amount : Int) (sig : Nat)
  | depositViaRouter (vault : Addr) (amount : Int) (receiver : Addr) (minShareOut : Int)
deriving DecidableEq, Repr

/-- Network interactions issued by an onDeposit run, in program order. -/
inductive NetCall
  | safeBatchSend (batch : List BatchCall)
  | readRouterAllowance (token router vault : Addr)
  | sendDepositToVault (vault : Addr) (receiver : Addr) (amount : Int)
  | sendRouterMulticall (router : Addr) (calls : List RouterCall)
deriving DecidableEq, Repr

/-- Result of one onDeposit run: the resolved or thrown outcome, the value
of the isDepositing flag when the call completes, the network calls issued
and the callbacks invoked. -/
structure DepositRun where
  result : Except String Bool
  isDepositing : Bool
  calls : List NetCall
  onSuccessCalled : Bool
  onFailureCalled : Bool

/-- canDeposit (part_001 lines 520-562). -/
def canDeposit (args : DepositArgs) (env : DepositEnv) : Bool :=
  if isEthAddress args.tokenToDeposit then false
  else match args.version with
  | .LEGACY =>
      isAddress args.tokenToDeposit && isAddress args.vault &&
        decide (0 < args.amountToDeposit) &&
        jsTruthyOpt env.availableDepositLimit &&
        decide (args.amountToDeposit ≤ toBigInt env.availableDepositLimit)
  | .ERC4626 =>
      if !(isAddress args.tokenToDeposit) || !(isAddress args.vault) then false
      else if args.amountToDeposit ≤ 0 then false
      else if toBigInt env.maxDepositForUser < args.amountToDeposit then false
      else jsTruthyOpt env.previewDeposit && decide (0 < toBigInt env.previewDeposit)

/-- The receiver expression used by every execution path:
isAddress(args.receiver) ? args.receiver : args.owner. -/
def receiverOrOwner (receiver : Option Addr) (owner : Addr) : Addr :=
  match receiver with
  | some r => if isAddress r then r else owner
  | none => owner

/-- options?.disableSafeBatch, with undefined falsy. -/
def disableSafeBatchOf : Option DepositOptions → Bool
  | none => false
  | some o => o.disableSafeBatch

/-- The Safe batch built at part_001 lines 589-609: an ERC-20 approve of
the vault unless the token is the zero address, then the vault deposit. -/
def safeBatchCalls (args : DepositArgs) : List BatchCall :=
  (if isZeroAddress args.tokenToDeposit then []
   else [BatchCall.approve args.tokenToDeposit args.vault args.amountToDeposit]) ++
  [BatchCall.deposit args.vault args.amountToDeposit (receiverOrOwner args.receiver args.owner)]

/-- The router multicall built at part_001 lines 697-751: a one-time
unlimited approve when the router allowance is below maxUint256, an
optional selfPermit, then depositToVault with
minShareOut = previewDeposit * (10000 - minOutSlippage) / 10000. -/
def routerMulticalls (args : DepositArgs) (opts : DepositOptions) (env : DepositEnv) :
    List RouterCall :=
  (if env.routerAllowance < maxUint256 then
    [RouterCall.approveRouter args.tokenToDeposit args.vault] else []) ++
  (match opts.permitSignature with
   | some sig => [RouterCall.selfPermit args.tokenToDeposit args.amountToDeposit sig]
   | none => []) ++
  [RouterCall.depositViaRouter args.vault args.amountToDeposit
    (receiverOrOwner args.receiver args.owner)
    (jsDiv (toBigInt env.previewDeposit * (10000 - opts.minOutSlippage)) 10000)]

/-- Body of onDeposit after the canDeposit entry guard and after
set_isDepositing(true) (part_001 lines 581-790).  Branch order follows the
source: Safe batch (with try/catch/finally resetting the flag), then the
wagmi provider check, then LEGACY direct deposit, then the router path of
ERC-4626 when options are present (whose two validation throws happen with
no enclosing finally, leaving the flag set), then the direct ERC-4626
deposit. -/
def onDepositBody (args : DepositArgs) (env : DepositEnv) : DepositRun :=
  if env.isWalletSafe && !(disableSafeBatchOf args.options) then
    if env.safeSendThrows then
      { result := .ok false, isDepositing := false,
        calls := [NetCall.safeBatchSend (safeBatchCalls args)],
        onSuccessCalled := false, onFailureCalled := true }
    else match env.safeTxStatus with
      | .SUCCESS =>
        { result := .ok true, isDepositing := false,
          calls := [NetCall.safeBatchSend (safeBatchCalls args)],
          onSuccessCalled := true, onFailureCalled := false }
      | _ =>
        { result := .ok false, isDepositing := false,
          calls := [NetCall.safeBatchSend (safeBatchCalls args)],
          onSuccessCalled := false, onFailureCalled := true }
  else if !(isAddressOpt env.wagmiProviderAddress) then
    { result := .ok false, isDepositing := false, calls := [],
      onSuccessCalled := false, onFailureCalled := false }
  else match args.version with
  | .LEGACY =>
    { result := .ok env.sendResult, isDepositing := false,
      calls := [NetCall.sendDepositToVault args.vault
        (receiverOrOwner args.receiver args.owner) args.amountToDeposit],
      onSuccessCalled := env.sendResult, onFailureCalled := !env.sendResult }
  | .ERC4626 =>
    match args.options with
    | some opts =>
      if opts.minOutSlippage < 0 ∨ 10000 < opts.minOutSlippage then
        { result := .error "Invalid minOutSlippage", isDepositing := true, calls := [],
          onSuccessCalled := false, onFailureCalled := false }
      else if !(isAddress opts.routerAddress) then
        { result := .error "Invalid router address", isDepositing := true, calls := [],
          onSuccessCalled := false, onFailureCalled := false }
      else
        { result := .ok env.sendResult, isDepositing := false,
          calls := [NetCall.readRouterAllowance args.tokenToDeposit opts.routerAddress args.vault,
            NetCall.sendRouterMulticall opts.routerAddress (routerMulticalls args opts env)],
          onSuccessCalled := env.sendResult, onFailureCalled := !env.sendResult }
    | none =>
      { result := .ok env.sendResult, isDepositing := false,
        calls := [NetCall.sendDepositToVault args.vault
          (receiverOrOwner args.receiver args.owner) args.amountToDeposit],
        onSuccessCalled := env.sendResult, onFailureCalled := !env.sendResult }

/-- onDeposit (part_001 lines 573-791).  isDepositing0 is the value of the
isDepositing flag at invocation time: the entry guard tests only
canDeposit, returning false with the flag untouched; the flag is never read
by the function body. -/
def onDeposit (args : DepositArgs) (env : DepositEnv) (isDepositing0 : Bool) : DepositRun :=
  if !(canDeposit args env) then
    { result := .ok false, isDepositing := isDepositing0, calls := [],
      onSuccessCalled := false, onFailureCalled := false }
  else onDepositBody args env

/-! ### useVaultWithdraw (part_002) -/

structure WithdrawArgs where
  tokenToWithdraw : Addr
  vault : Addr
  owner : Addr
  receiver : Option Addr
  amountToWithdraw : Int
  chainID : Nat
  redeemTolerance : Int
  version : VaultVersion
  minOutSlippage : Int
deriving DecidableEq, Repr

/-- External inputs of one onWithdraw run.  shareOf, decimals and
pricePerShare are the hook-level reads; convertToShares and availableShares
are the two readContracts results fetched inside the ERC-4626 path. -/
structure WithdrawEnv where
  wagmiProviderAddress : Option Addr
  maxWithdrawForUser : Option Int
  shareOf : Option Int
  decimals : Option Int
  pricePerShare : Option Int
  convertToShares : Int
  availableShares : Int
  sendResult : Bool
deriving DecidableEq, Repr

/-- Network interactions issued by an onWithdraw run, in program order. -/
inductive WNetCall
  | readConvertAndBalance (vault : Addr) (amount : Int) (who : Option Addr)
  | sendWithdrawFromVault (vault receiver : Addr) (amount : Int)
  | sendWithdrawFrom4626 (vault : Addr) (amount maxLoss : Int) (receiver owner : Addr)
      (shouldUseRedeem : Bool)
deriving DecidableEq, Repr

structure WithdrawRun where
  result : Except String Bool
  isWithdrawing : Bool
  calls : List WNetCall
  onSuccessCalled : Bool
  onFailureCalled : Bool

/-- canWithdraw (part_002 lines 153-180). -/
def canWithdraw (args : WithdrawArgs) (env : WithdrawEnv) : Bool :=
  if isEthAddress args.tokenToWithdraw then false
  else match args.version with
  | .LEGACY =>
      isAddress args.tokenToWithdraw && isAddress args.vault &&
        decide (0 < args.amountToWithdraw)
  | .ERC4626 =>
      if !(isAddress args.tokenToWithdraw) || !(isAddress args.vault) then false
      else if args.amountToWithdraw ≤ 0 then false
      else if toBigInt env.maxWithdrawForUser < args.amountToWithdraw then false
      else true

/-- The LEGACY share conversion of part_002 lines 218-219:
(amountToWithdraw * 10n ** toBigInt(decimals)) / toBigInt(pricePerShare),
bigint multiplication first, then bigint division. -/
def legacyConvertToShare (amountToWithdraw : Int) (decimals pricePerShare : Option Int) : Int :=
  jsDiv (amountToWithdraw * (10 : Int) ^ (toBigInt decimals).toNat) (toBigInt pricePerShare)

/-- The full-withdrawal classification of part_002 lines 220-221 and
296-297 (both paths compute the same formula):
shares - convertToShare < shares * redeemTolerance / 10000, with a strict
comparison. -/
def isAskingToWithdrawAll (availableShares convertToShare redeemTolerance : Int) : Bool :=
  decide (availableShares - convertToShare < jsDiv (availableShares * redeemTolerance) 10000)

/-- Body of onWithdraw after the canWithdraw entry guard and after
set_isWithdrawing(true) (part_002 lines 196-317): the wagmi provider check,
the redeemTolerance validation throw (no enclosing finally, the flag stays
set), then the LEGACY direct path or the ERC-4626 path with its own
minOutSlippage validation throw followed by the convertToShares/balanceOf
reads and the withdraw-or-redeem send. -/
def onWithdrawBody (args : WithdrawArgs) (env : WithdrawEnv) : WithdrawRun :=
  if !(isAddressOpt env.wagmiProviderAddress) then
    { result := .ok false, isWithdrawing := false, calls := [],
      onSuccessCalled := false, onFailureCalled := false }
  else if args.redeemTolerance < 0 ∨ 10000 < args.redeemTolerance then
    { result := .error "Invalid redeemTolerance", isWithdrawing := true, calls := [],
      onSuccessCalled := false, onFailureCalled := false }
  else match args.version with
  | .LEGACY =>
    { result := .ok env.sendResult, isWithdrawing := false,
      calls := [WNetCall.sendWithdrawFromVault args.vault
        (receiverOrOwner args.receiver args.owner)
        (if isAskingToWithdrawAll (toBigInt env.shareOf)
            (legacyConvertToShare args.amountToWithdraw env.decimals env.pricePerShare)
            args.redeemTolerance
         then toBigInt env.shareOf
         else legacyConvertToShare args.amountToWithdraw env.decimals env.pricePerShare)],
      onSuccessCalled := env.sendResult, onFailureCalled := !env.sendResult }
  | .ERC4626 =>
    if args.minOutSlippage < 0 ∨ 10000 < args.minOutSlippage then
      { result := .error "Invalid minOutSlippage", isWithdrawing := true, calls := [],
        onSuccessCalled := false, onFailureCalled := false }
    else
      { result := .ok env.sendResult, isWithdrawing := false,
        calls := [WNetCall.readConvertAndBalance args.vault args.amountToWithdraw
            env.wagmiProviderAddress,
          WNetCall.sendWithdrawFrom4626 args.vault
            (if isAskingToWithdrawAll env.availableShares env.convertToShares
                args.redeemTolerance
             then env.availableShares else args.amountToWithdraw)
            args.minOutSlippage
            (receiverOrOwner args.receiver args.owner)
            args.owner
            (isAskingToWithdrawAll env.availableShares env.convertToShares
              args.redeemTolerance)],
        onSuccessCalled := env.sendResult, onFailureCalled := !env.sendResult }

/-- onWithdraw (part_002 lines 191-318).  isWithdrawing0 is the value of
the isWithdrawing flag at invocation time: the entry guard tests only
canWithdraw, returning false with the flag untouched; the flag is never
read by the function body. -/
def onWithdraw (args : WithdrawArgs) (env : WithdrawEnv) (isWithdrawing0 : Bool) : WithdrawRun :=
  if !(canWithdraw args env) then
    { result := .ok false, isWithdrawing := isWithdrawing0, calls := [],
      onSuccessCalled := false, onFailureCalled := false }
  else onWithdrawBody args env

/-! ### Observation helpers -/

/-- Whether an Except value is a normal (non-thrown) completion. -/
def exceptOk : Except String Bool → Bool
  | .ok _ => true
  | .error _ => false

/-- Everything an onDeposit run does that a caller can observe, except the
in-flight flag itself. -/
def depositBehavior (r : DepositRun) : Except String Bool × List NetCall × Bool × Bool :=
  (r.result, r.calls, r.onSuccessCalled, r.onFailureCalled)

/-- Everything an onWithdraw run does that a caller can observe, except the
in-flight flag itself. -/
def withdrawBehavior (r : WithdrawRun) : Except String Bool × List WNetCall × Bool × Bool :=
  (r.result, r.calls, r.onSuccessCalled, r.onFailureCalled)

/-- The receiver addresses carried by the on-chain calls of a deposit run
(the Safe batch deposit, the direct vault deposit, and the router
depositToVault). -/
def depositCallReceivers : NetCall → List Addr
  | .safeBatchSend batch => batch.flatMap fun
      | .deposit _ _ r => [r]
      | _ => []
  | .sendDepositToVault _ r _ => [r]
  | .sendRouterMulticall _ cs => cs.flatMap fun
      | .depositViaRouter _ _ r _ => [r]
      | _ => []
  | _ => []

/-- The receiver addresses carried by the on-chain calls of a withdraw
run. -/
def withdrawCallReceivers : WNetCall → List Addr
  | .sendWithdrawFromVault _ r _ => [r]
  | .sendWithdrawFrom4626 _ _ _ r _ _ => [r]
  | _ => []

/-! ### Concrete fixtures -/

/-- A well-formed ordinary token address. -/
def tokenAddr : Addr := ⟨1, true, false, false⟩

/-- A well-formed vault address. -/
def vaultAddr : Addr := ⟨2, true, false, false⟩

/-- A well-formed owner address. -/
def ownerAddr : Addr := ⟨3, true, false, false⟩

/-- A well-formed router address. -/
def routerAddr : Addr := ⟨4, true, false, false⟩

/-- A malformed (not well-formed) address. -/
def badAddr : Addr := ⟨9, false, false, false⟩

/-- A deposit environment with an ordinary wallet, a loaded provider and
friendly chain reads. -/
def baseDepositEnv : DepositEnv :=
  { isWalletSafe := false, maxDepositForUser := some 100, previewDeposit := some 10,
    availableDepositLimit := some 100, wagmiProviderAddress := some ownerAddr,
    routerAllowance := 0, sendResult := true, safeSendThrows := false,
    safeTxStatus := .SUCCESS }

/-- A withdraw environment with a loaded provider and friendly chain
reads. -/
def baseWithdrawEnv : WithdrawEnv :=
  { wagmiProviderAddress := some ownerAddr, maxWithdrawForUser := some 100,
    shareOf := some 100, decimals := some 0, pricePerShare := some 1,
    convertToShares := 100, availableShares := 100, sendResult := true }

/-- ERC-4626 deposit arguments carrying router options with the
out-of-range slippage 10001. -/
def badSlippageDepositArgs : DepositArgs :=
  { tokenToDeposit := tokenAddr, vault := vaultAddr, owner := ownerAddr, receiver := none,
    amountToDeposit := 5, chainID := 1, version := .ERC4626,
    options := some { disableSafeBatch := false, useRouter := true,
                      routerAddress := routerAddr, minOutSlippage := 10001,
                      permitSignature := none } }

/-- The same out-of-range deposit arguments executed from a Safe wallet. -/
def safeWalletDepositEnv : DepositEnv := { baseDepositEnv with isWalletSafe := true }

/-- ERC-4626 withdraw arguments requesting 7 underlying with
redeemTolerance 0. -/
def zeroToleranceWithdrawArgs : WithdrawArgs :=
  { tokenToWithdraw := tokenAddr, vault := vaultAddr, owner := ownerAddr, receiver := none,
    amountToWithdraw := 7, chainID := 1, redeemTolerance := 0, version := .ERC4626,
    minOutSlippage := 50 }

/-- LEGACY withdraw arguments carrying the out-of-range redeemTolerance
-1. -/
def badToleranceWithdrawArgs : WithdrawArgs :=
  { tokenToWithdraw := tokenAddr, vault := vaultAddr, owner := ownerAddr, receiver := none,
    amountToWithdraw := 5, chainID := 1, redeemTolerance := -1, version := .LEGACY,
    minOutSlippage := 0 }

/-- ERC-4626 withdraw arguments with redeemTolerance 10000. -/
def fullToleranceWithdrawArgs : WithdrawArgs :=
  { tokenToWithdraw := tokenAddr, vault := vaultAddr, owner := ownerAddr, receiver := none,
    amountToWithdraw := 7, chainID := 1, redeemTolerance := 10000, version := .ERC4626,
    minOutSlippage := 50 }

/-- A withdraw environment in which the shares computed for the request
come back as 0 while the owner holds 5 shares. -/
def zeroShareWithdrawEnv : WithdrawEnv :=
  { baseWithdrawEnv with convertToShares := 0, availableShares := 5 }

/-- Plain direct ERC-4626 deposit arguments (no options). -/
def directDepositArgs : DepositArgs :=
  { tokenToDeposit := tokenAddr, vault := vaultAddr, owner := ownerAddr, receiver := none,
    amountToDeposit := 5, chainID := 1, version := .ERC4626, options := none }

/-- Direct ERC-4626 deposit arguments with amountToDeposit = 0. -/
def zeroAmountDepositArgs : DepositArgs :=
  { directDepositArgs with amountToDeposit := 0 }

/-- Direct ERC-4626 deposit arguments carrying a malformed receiver. -/
def badReceiverDepositArgs : DepositArgs :=
  { directDepositArgs with receiver := some badAddr }

/-- ERC-4626 withdraw arguments carrying a malformed receiver. -/
def badReceiverWithdrawArgs : WithdrawArgs :=
  { tokenToWithdraw := tokenAddr, vault := vaultAddr, owner := ownerAddr,
    receiver := some badAddr, amountToWithdraw := 7, chainID := 1, redeemTolerance := 100,
    version := .ERC4626, minOutSlippage := 50 }

/-! ### Helper lemmas -/

/-- Every execution path substitutes the owner for a receiver that is not a
well-formed address. -/
theorem receiverOrOwner_invalid (receiver : Option Addr) (owner : Addr)
    (h : isAddressOpt receiver = false) : receiverOrOwner receiver owner = owner := by
  cases receiver with
  | none => rfl
  | some r =>
    simp only [isAddressOpt] at h
    simp [receiverOrOwner, h]

/-- Invariant of the useApprove hook: in every reachable state, whenever a
permit signature is stored the stored permit allowance is a strictly
positive value (it was set to amountToApprove under the canApprove
guard). -/
theorem approve_permit_invariant (s : ApproveState) (h : ApproveReachable s) :
    s.permitSignature = none ∨ ∃ a, s.permitAllowance = some a ∧ 0 < a := by
  induction h with
  | init => exact Or.inl rfl
  | approve tok spend amt up ps sr ar s hs ih =>
    unfold onApprove
    split
    · exact ih
    · next hcan =>
      have hcan2 : canApprove tok spend amt = true := by
        cases hcv : canApprove tok spend amt
        · exact absurd (by rw [hcv]; rfl) hcan
        · rfl
      have hamt : 0 < amt := by
        unfold canApprove at hcan2
        split at hcan2
        · exact absurd hcan2 (by simp)
        · simp only [Bool.and_eq_true, decide_eq_true_eq] at hcan2
          exact hcan2.2
      split
      · split
        · exact Or.inl rfl
        · exact Or.inr ⟨amt, rfl, hamt⟩
      · exact Or.inl rfl
  | clear s hs ih => exact Or.inl rfl

/-! ### Claims -/

/-- Claim C1, counterexample: an ERC-4626 onDeposit invocation that passes
canDeposit and reaches the router options with minOutSlippage = 10001
throws the Invalid minOutSlippage error after set_isDepositing(true) and
outside any try/finally, so the call completes with the in-flight flag
still set to true. -/
theorem inflight_flag_left_set_on_validation_throw :
    (onDeposit badSlippageDepositArgs baseDepositEnv false).result =
      Except.error "Invalid minOutSlippage" ∧
    (onDeposit badSlippageDepositArgs baseDepositEnv false).isDepositing = true := by
  constructor <;> rfl

/-- Claim C1, amended: starting from a clear flag, the in-flight flag of
onDeposit and of onWithdraw is reset to false on exactly the exit paths
that complete without throwing; on the validation-throw exits (Invalid
minOutSlippage, Invalid router address, Invalid redeemTolerance) the flag
is left set to true, because those throws happen after the flag is set and
outside any try/finally. -/
theorem inflight_flag_reset_iff_no_throw (dargs : DepositArgs) (denv : DepositEnv)
    (wargs : WithdrawArgs) (wenv : WithdrawEnv) :
    (onDeposit dargs denv false).isDepositing =
      !(exceptOk (onDeposit dargs denv false).result) ∧
    (onWithdraw wargs wenv false).isWithdrawing =
      !(exceptOk (onWithdraw wargs wenv false).result) := by
  constructor
  · unfold onDeposit onDepositBody
    repeat' split
    all_goals rfl
  · unfold onWithdraw onWithdrawBody
    repeat' split
    all_goals rfl

/-- Claim C2, counterexample: with the shares computed for the request
exactly equal to the owner's share balance (both 100) and the in-range
tolerance 0, the ERC-4626 path of onWithdraw does not classify the request
as a full withdrawal: the classification formula is strictly
shares - computed < shares * 0 / 10000, that is 0 < 0, which is false, so
the issued call withdraws the requested amount 7 with shouldUseRedeem set
to false instead of redeeming the whole balance. -/
theorem tolerance_idempotence_fails_at_zero_tolerance :
    zeroToleranceWithdrawArgs.redeemTolerance = 0 ∧
    baseWithdrawEnv.convertToShares = baseWithdrawEnv.availableShares ∧
    isAskingToWithdrawAll 100 100 0 = false ∧
    (onWithdraw zeroToleranceWithdrawArgs baseWithdrawEnv false).calls =
      [WNetCall.readConvertAndBalance vaultAddr 7 (some ownerAddr),
       WNetCall.sendWithdrawFrom4626 vaultAddr 7 50 ownerAddr ownerAddr false] := by
  refine ⟨rfl, rfl, by decide, rfl⟩

/-- Claim C2, amended: when the computed shares exactly equal the owner's
share balance, both withdraw paths classify the request as a full
withdrawal exactly when the computed tolerance band
shares * redeemTolerance / 10000 is strictly positive; in particular the
classification fails for redeemTolerance = 0 and more generally whenever
shares * redeemTolerance < 10000. -/
theorem tolerance_idempotence_amended (s t : Int) :
    isAskingToWithdrawAll s s t = true ↔ 0 < jsDiv (s * t) 10000 := by
  simp [isAskingToWithdrawAll]

/-- Claim C3, counterexample: an onDeposit invocation from a Safe wallet
with the out-of-range minOutSlippage = 10001 never reaches the validation
throw; the Safe batch (approve plus deposit) is built and submitted, the
call resolves true, and network calls are observed. -/
theorem safe_batch_skips_slippage_validation :
    (badSlippageDepositArgs.options.map DepositOptions.minOutSlippage) = some 10001 ∧
    (onDeposit badSlippageDepositArgs safeWalletDepositEnv false).result = Except.ok true ∧
    (onDeposit badSlippageDepositArgs safeWalletDepositEnv false).calls =
      [NetCall.safeBatchSend
        [BatchCall.approve tokenAddr vaultAddr 5,
         BatchCall.deposit vaultAddr 5 ownerAddr]] := by
  refine ⟨rfl, rfl, rfl⟩

/-- Claim C3, amended: whenever onDeposit or onWithdraw throws (which
covers the Invalid minOutSlippage, Invalid router address and Invalid
redeemTolerance validation errors), no network call has been issued; but
this rejection is only reached in the direct and router strategies — the
Safe-batch strategy of onDeposit never validates minOutSlippage and
submits the batch regardless (see the counterexample). -/
theorem validation_throw_before_network (dargs : DepositArgs) (denv : DepositEnv) (b : Bool)
    (e : String) (wargs : WithdrawArgs) (wenv : WithdrawEnv) (c : Bool) (f : String) :
    ((onDeposit dargs denv b).result = Except.error e → (onDeposit dargs denv b).calls = []) ∧
    ((onWithdraw wargs wenv c).result = Except.error f →
      (onWithdraw wargs wenv c).calls = []) := by
  constructor
  · unfold onDeposit onDepositBody
    repeat' split
    all_goals intro h
    all_goals first | rfl | simp at h
  · unfold onWithdraw onWithdrawBody
    repeat' split
    all_goals intro h
    all_goals first | rfl | simp at h

/-- Claim C3, witness: a LEGACY onWithdraw with redeemTolerance = -1
throws Invalid redeemTolerance and has issued no network call. -/
theorem validation_throw_before_network_witness :
    (onWithdraw badToleranceWithdrawArgs baseWithdrawEnv false).result =
      Except.error "Invalid redeemTolerance" ∧
    (onWithdraw badToleranceWithdrawArgs baseWithdrawEnv false).calls = [] :=
  ⟨rfl,
    (validation_throw_before_network directDepositArgs baseDepositEnv false
      "Invalid minOutSlippage" badToleranceWithdrawArgs baseWithdrawEnv false
      "Invalid redeemTolerance").2 rfl⟩

/-- Claim C4: in every reachable state of useApprove that stores a permit
signature, isApproved never consults the on-chain allowance reading (the
result is identical for any two allowance readings), and for a
non-native-asset token it is decided exactly by comparing the stored permit
allowance with the requested amount.  The reachability hypothesis matters:
the hook only ever stores a permit allowance that is strictly positive, so
the bigint-truthiness guard of the source cannot fall through to the
on-chain allowance. -/
theorem approval_permit_precedence (s : ApproveState) (h : ApproveReachable s)
    (hsig : s.permitSignature.isSome = true) (tok : Addr) (amt a₁ a₂ : Int) :
    isApproved tok s.permitSignature s.permitAllowance (some a₁) amt =
      isApproved tok s.permitSignature s.permitAllowance (some a₂) amt ∧
    (isEthAddress tok = false →
      isApproved tok s.permitSignature s.permitAllowance (some a₁) amt =
        decide (amt ≤ toBigInt s.permitAllowance)) := by
  rcases approve_permit_invariant s h with hnone | ⟨a, ha, hpos⟩
  · rw [hnone] at hsig
    simp at hsig
  · have htr : jsTruthyOpt s.permitAllowance = true := by
      rw [ha]
      simp only [jsTruthyOpt, decide_eq_true_eq]
      omega
    have hguard : (s.permitSignature.isSome && jsTruthyOpt s.permitAllowance) = true := by
      rw [hsig, htr]
      rfl
    constructor
    · by_cases he : isEthAddress tok = true
      · simp [isApproved, he]
      · simp only [Bool.not_eq_true] at he
        simp [isApproved, he, hguard]
    · intro he
      simp [isApproved, he, hguard]

/-- Claim C4, witness: the state holding permit signature 7 with permit
allowance 5 is reachable (one successful permit-signing onApprove from the
initial state); there isApproved ignores the on-chain allowance (100
versus 0) and equals the permit comparison. -/
theorem approval_permit_precedence_witness :
    isApproved tokenAddr (some 7) (some 5) (some 100) 5 =
      isApproved tokenAddr (some 7) (some 5) (some 0) 5 ∧
    (isEthAddress tokenAddr = false →
      isApproved tokenAddr (some 7) (some 5) (some 100) 5 =
        decide ((5 : Int) ≤ toBigInt (some 5))) :=
  approval_permit_precedence ⟨false, some 7, some 5⟩
    (ApproveReachable.approve tokenAddr vaultAddr 5 true true (some 7) true
      ⟨false, none, none⟩ ApproveReachable.init)
    rfl tokenAddr 5 100 0

/-- Claim C5, counterexample: with canDeposit true and the isDepositing
flag already set (a prior invocation in flight), a second onDeposit
invocation is not rejected: it proceeds past the entry guard, issues the
deposit transaction and resolves true, because the entry guard of the
source checks only canDeposit and never reads the in-flight flag. -/
theorem concurrent_call_not_rejected :
    canDeposit directDepositArgs baseDepositEnv = true ∧
    (onDeposit directDepositArgs baseDepositEnv true).result = Except.ok true ∧
    (onDeposit directDepositArgs baseDepositEnv true).calls =
      [NetCall.sendDepositToVault vaultAddr ownerAddr 5] := by
  refine ⟨by decide, rfl, rfl⟩

/-- Claim C5, amended: the entry rejection of onDeposit and onWithdraw is
decided by canDeposit / canWithdraw alone.  The in-flight flag is never
consulted: the observable behaviour (result, network calls, callbacks) is
identical for any value of the flag at entry, and a call is rejected at
entry — resolving false with no network call — exactly on the canDeposit /
canWithdraw check.  A second concurrent invocation whose canDeposit is
still true therefore executes a second transaction. -/
theorem entry_guard_ignores_inflight_flag (dargs : DepositArgs) (denv : DepositEnv)
    (b₁ b₂ : Bool) (wargs : WithdrawArgs) (wenv : WithdrawEnv) :
    depositBehavior (onDeposit dargs denv b₁) = depositBehavior (onDeposit dargs denv b₂) ∧
    (canDeposit dargs denv = false →
      (onDeposit dargs denv b₁).result = Except.ok false ∧
      (onDeposit dargs denv b₁).calls = []) ∧
    withdrawBehavior (onWithdraw wargs wenv b₁) =
      withdrawBehavior (onWithdraw wargs wenv b₂) ∧
    (canWithdraw wargs wenv = false →
      (onWithdraw wargs wenv b₁).result = Except.ok false ∧
      (onWithdraw wargs wenv b₁).calls = []) := by
  refine ⟨?_, ?_, ?_, ?_⟩
  · unfold onDeposit
    split <;> rfl
  · intro hc
    unfold onDeposit
    rw [hc]
    exact ⟨rfl, rfl⟩
  · unfold onWithdraw
    split <;> rfl
  · intro hc
    unfold onWithdraw
    rw [hc]
    exact ⟨rfl, rfl⟩

/-- Claim C5, amended witness: a zero-amount deposit is rejected at entry
with no network call, even with the in-flight flag set. -/
theorem entry_guard_ignores_inflight_flag_witness :
    canDeposit zeroAmountDepositArgs baseDepositEnv = false ∧
    (onDeposit zeroAmountDepositArgs baseDepositEnv true).result = Except.ok false ∧
    (onDeposit zeroAmountDepositArgs baseDepositEnv true).calls = [] := by
  have h := (entry_guard_ignores_inflight_flag zeroAmountDepositArgs baseDepositEnv true false
    badReceiverWithdrawArgs baseWithdrawEnv).2.1 (by decide)
  exact ⟨by decide, h⟩

/-- Claim C6, counterexample: with redeemTolerance = 0 and computed shares
exactly equal to the balance (5 and 5) the request is not classified as a
full withdrawal, contradicting the only-on-exact-equality reading; and
with redeemTolerance = 10000 a request permitted by canWithdraw whose
computed shares come back 0 (owner balance 5) is not classified as a full
withdrawal either: the issued call withdraws the requested amount 7 with
shouldUseRedeem false. -/
theorem boundary_tolerance_fails :
    isAskingToWithdrawAll 5 5 0 = false ∧
    canWithdraw fullToleranceWithdrawArgs zeroShareWithdrawEnv = true ∧
    (onWithdraw fullToleranceWithdrawArgs zeroShareWithdrawEnv false).calls =
      [WNetCall.readConvertAndBalance vaultAddr 7 (some ownerAddr),
       WNetCall.sendWithdrawFrom4626 vaultAddr 7 50 ownerAddr ownerAddr false] := by
  refine ⟨by decide, by decide, by decide⟩

/-- Claim C6, amended: with redeemTolerance = 0 the classification holds
exactly when the computed shares strictly exceed the owner's balance
(never on exact equality), and with redeemTolerance = 10000 it holds
exactly when the computed shares are strictly positive. -/
theorem boundary_tolerance_amended (s c : Int) :
    (isAskingToWithdrawAll s c 0 = true ↔ s < c) ∧
    (isAskingToWithdrawAll s c 10000 = true ↔ 0 < c) := by
  constructor
  · simp only [isAskingToWithdrawAll, jsDiv, mul_zero, Int.zero_tdiv, decide_eq_true_eq]
    omega
  · simp only [isAskingToWithdrawAll, jsDiv,
      Int.mul_tdiv_cancel s (by norm_num : (10000 : Int) ≠ 0), decide_eq_true_eq]
    omega

/-- Claim C7: the LEGACY share conversion of onWithdraw computes exactly
the truncated integer quotient of the exact product
amount * 10 ^ decimals by the price per share: the result is nonnegative
and is characterized by shares * p ≤ a * 10 ^ d < (shares + 1) * p, the
division-algorithm description of multiplication first, then integer
division truncating toward zero. -/
theorem legacy_share_conversion (a d p : Int) (ha : 0 ≤ a) (hp : 0 < p) :
    0 ≤ legacyConvertToShare a (some d) (some p) ∧
    legacyConvertToShare a (some d) (some p) * p ≤ a * 10 ^ d.toNat ∧
    a * 10 ^ d.toNat < (legacyConvertToShare a (some d) (some p) + 1) * p := by
  have hnum : (0 : Int) ≤ a * 10 ^ d.toNat := mul_nonneg ha (by positivity)
  have heq : legacyConvertToShare a (some d) (some p) = a * 10 ^ d.toNat / p := by
    show Int.tdiv (a * 10 ^ d.toNat) p = a * 10 ^ d.toNat / p
    exact Int.tdiv_eq_ediv hnum (le_of_lt hp)
  refine ⟨?_, ?_, ?_⟩
  · rw [heq]
    exact Int.ediv_nonneg hnum (le_of_lt hp)
  · rw [heq]
    exact Int.ediv_mul_le (a * 10 ^ d.toNat) (ne_of_gt hp)
  · rw [heq]
    exact Int.lt_ediv_add_one_mul_self (a * 10 ^ d.toNat) hp

/-- Claim C7, witness: for amount 100, decimals 0, price-per-share 7 the
computed shares are the truncated quotient (14, with 14 * 7 = 98 ≤ 100 <
105 = 15 * 7). -/
theorem legacy_share_conversion_witness :
    ((0 : Int) ≤ 100 ∧ (0 : Int) < 7) ∧
    (0 ≤ legacyConvertToShare 100 (some 0) (some 7) ∧
     legacyConvertToShare 100 (some 0) (some 7) * 7 ≤ 100 * 10 ^ (0 : Int).toNat ∧
     100 * 10 ^ (0 : Int).toNat < (legacyConvertToShare 100 (some 0) (some 7) + 1) * 7) :=
  ⟨⟨by decide, by decide⟩, legacy_share_conversion 100 0 7 (by decide) (by decide)⟩

/-- Claim C8: canDeposit is true only if the token and vault addresses are
well-formed, the token is not the native asset and the amount is strictly
positive, with the ERC-4626 bound amount ≤ maxDeposit and previewed shares
strictly positive, and the LEGACY bound amount ≤ availableDepositLimit;
a zero amount makes canDeposit false; and when canDeposit is false,
onDeposit resolves false having issued no network call. -/
theorem canDeposit_necessary_conditions (args : DepositArgs) (env : DepositEnv) :
    (canDeposit args env = true →
      isEthAddress args.tokenToDeposit = false ∧
      isAddress args.tokenToDeposit = true ∧
      isAddress args.vault = true ∧
      0 < args.amountToDeposit ∧
      (args.version = VaultVersion.ERC4626 →
        args.amountToDeposit ≤ toBigInt env.maxDepositForUser ∧
        0 < toBigInt env.previewDeposit) ∧
      (args.version = VaultVersion.LEGACY →
        args.amountToDeposit ≤ toBigInt env.availableDepositLimit)) ∧
    (args.amountToDeposit = 0 → canDeposit args env = false) ∧
    (canDeposit args env = false →
      (onDeposit args env false).result = Except.ok false ∧
      (onDeposit args env false).calls = []) := by
  refine ⟨?_, ?_, ?_⟩
  · intro h
    unfold canDeposit at h
    split at h
    · exact absurd h (by simp)
    · next heth =>
      have heth2 : isEthAddress args.tokenToDeposit = false := by
        cases hB : isEthAddress args.tokenToDeposit
        · rfl
        · exact absurd hB heth
      split at h
      · next hver =>
        simp only [Bool.and_eq_true, decide_eq_true_eq] at h
        refine ⟨heth2, h.1.1.1.1, h.1.1.1.2, h.1.1.2, ?_, fun _ => h.2⟩
        intro h46
        rw [hver] at h46
        cases h46
      · next hver =>
        split at h
        · exact absurd h (by simp)
        · next haddr =>
          split at h
          · exact absurd h (by simp)
          · next hle0 =>
            split at h
            · exact absurd h (by simp)
            · next hmax =>
              simp only [Bool.and_eq_true, decide_eq_true_eq] at h
              have htok : isAddress args.tokenToDeposit = true := by
                cases hB : isAddress args.tokenToDeposit
                · exact absurd (by rw [hB]; rfl) haddr
                · rfl
              have hvlt : isAddress args.vault = true := by
                cases hB : isAddress args.vault
                · exact absurd (by rw [hB]; simp) haddr
                · rfl
              refine ⟨heth2, htok, hvlt, by omega, fun _ => ⟨by omega, h.2⟩, ?_⟩
              intro hleg
              rw [hver] at hleg
              cases hleg
  · intro h0
    unfold canDeposit
    split
    · rfl
    · split
      · rw [h0]
        simp
      · rw [h0]
        split
        · rfl
        · rw [if_pos (le_refl (0 : Int))]
  · intro hc
    unfold onDeposit
    rw [hc]
    exact ⟨rfl, rfl⟩

/-- Claim C8, witness: a direct ERC-4626 deposit of 0 tokens has
canDeposit false, and onDeposit resolves false without issuing any
network call. -/
theorem canDeposit_necessary_conditions_witness :
    canDeposit zeroAmountDepositArgs baseDepositEnv = false ∧
    (onDeposit zeroAmountDepositArgs baseDepositEnv false).result = Except.ok false ∧
    (onDeposit zeroAmountDepositArgs baseDepositEnv false).calls = [] := by
  have h := canDeposit_necessary_conditions zeroAmountDepositArgs baseDepositEnv
  have h0 : canDeposit zeroAmountDepositArgs baseDepositEnv = false := h.2.1 rfl
  exact ⟨h0, h.2.2 h0⟩

/-- Claim C9: when permit signing returns null during an onApprove with
shouldUsePermit and a permit-supporting token, the stored permit signature
and permit allowance are both cleared, onFailure is invoked (and onSuccess
is not), the allowance is refetched, the isApproving flag is reset to
false, and the call resolves false; the function is total, reflecting that
this path throws nothing. -/
theorem permit_rejection_recovery (tok spend : Addr) (amt : Int) (ar : Bool)
    (s : ApproveState) (hc : canApprove tok spend amt = true) :
    (onApprove tok spend amt true true none ar s).result = false ∧
    (onApprove tok spend amt true true none ar s).state =
      { isApproving := false, permitSignature := none, permitAllowance := none } ∧
    (onApprove tok spend amt true true none ar s).onFailureCalled = true ∧
    (onApprove tok spend amt true true none ar s).onSuccessCalled = false ∧
    (onApprove tok spend amt true true none ar s).refetched = true := by
  unfold onApprove
  rw [hc]
  exact ⟨rfl, rfl, rfl, rfl, rfl⟩

/-- Claim C9, witness: a concrete rejected permit signing, starting from a
state that held a previous permit. -/
theorem permit_rejection_recovery_witness :
    canApprove tokenAddr routerAddr 5 = true ∧
    ((onApprove tokenAddr routerAddr 5 true true none true ⟨true, some 9, some 3⟩).result = false ∧
     (onApprove tokenAddr routerAddr 5 true true none true ⟨true, some 9, some 3⟩).state =
       { isApproving := false, permitSignature := none, permitAllowance := none } ∧
     (onApprove tokenAddr routerAddr 5 true true none true ⟨true, some 9, some 3⟩).onFailureCalled = true ∧
     (onApprove tokenAddr routerAddr 5 true true none true ⟨true, some 9, some 3⟩).onSuccessCalled = false ∧
     (onApprove tokenAddr routerAddr 5 true true none true ⟨true, some 9, some 3⟩).refetched = true) :=
  ⟨by decide, permit_rejection_recovery tokenAddr routerAddr 5 true ⟨true, some 9, some 3⟩ (by decide)⟩

/-- Receivers carried by a Safe batch: exactly the one receiver of its
deposit call. -/
theorem depositCallReceivers_safeBatch (args : DepositArgs) :
    depositCallReceivers (NetCall.safeBatchSend (safeBatchCalls args)) =
      [receiverOrOwner args.receiver args.owner] := by
  unfold safeBatchCalls
  split <;> rfl

/-- Receivers carried by a router multicall: exactly the one receiver of
its depositToVault call. -/
theorem depositCallReceivers_router (args : DepositArgs) (opts : DepositOptions)
    (env : DepositEnv) :
    depositCallReceivers
      (NetCall.sendRouterMulticall opts.routerAddress (routerMulticalls args opts env)) =
      [receiverOrOwner args.receiver args.owner] := by
  unfold routerMulticalls
  repeat' split
  all_goals rfl

/-- Receivers carried by a direct vault deposit call. -/
theorem depositCallReceivers_direct (vault receiver : Addr) (amount : Int) :
    depositCallReceivers (NetCall.sendDepositToVault vault receiver amount) = [receiver] := rfl

/-- Receivers carried by a router allowance read: none. -/
theorem depositCallReceivers_read (token router vault : Addr) :
    depositCallReceivers (NetCall.readRouterAllowance token router vault) = [] := rfl

/-- Receivers carried by a legacy withdraw call. -/
theorem withdrawCallReceivers_legacy (vault receiver : Addr) (amount : Int) :
    withdrawCallReceivers (WNetCall.sendWithdrawFromVault vault receiver amount) =
      [receiver] := rfl

/-- Receivers carried by an ERC-4626 withdraw or redeem call. -/
theorem withdrawCallReceivers_4626 (vault : Addr) (amount maxLoss : Int)
    (receiver owner : Addr) (useRedeem : Bool) :
    withdrawCallReceivers
      (WNetCall.sendWithdrawFrom4626 vault amount maxLoss receiver owner useRedeem) =
      [receiver] := rfl

/-- Receivers carried by the convertToShares and balanceOf reads: none. -/
theorem withdrawCallReceivers_read (vault : Addr) (amount : Int) (who : Option Addr) :
    withdrawCallReceivers (WNetCall.readConvertAndBalance vault amount who) = [] := rfl

/-- Claim C10: in every execution path of onDeposit (Safe batch, direct
legacy, router multicall, direct ERC-4626) and of onWithdraw (legacy,
ERC-4626), when the optional receiver argument is not a well-formed
address, every receiver passed to an on-chain call is the owner
address. -/
theorem receiver_defaults_to_owner (dargs : DepositArgs) (denv : DepositEnv) (b : Bool)
    (wargs : WithdrawArgs) (wenv : WithdrawEnv) (c : Bool)
    (hd : isAddressOpt dargs.receiver = false) (hw : isAddressOpt wargs.receiver = false) :
    (∀ r ∈ (onDeposit dargs denv b).calls.flatMap depositCallReceivers, r = dargs.owner) ∧
    (∀ r ∈ (onWithdraw wargs wenv c).calls.flatMap withdrawCallReceivers,
      r = wargs.owner) := by
  have hro := receiverOrOwner_invalid dargs.receiver dargs.owner hd
  have hrw := receiverOrOwner_invalid wargs.receiver wargs.owner hw
  constructor
  · unfold onDeposit onDepositBody
    repeat' split
    all_goals intro r hr
    all_goals simp [depositCallReceivers_safeBatch, depositCallReceivers_router,
      depositCallReceivers_direct, depositCallReceivers_read, hro] at hr
    all_goals exact hr
  · unfold onWithdraw onWithdrawBody
    repeat' split
    all_goals intro r hr
    all_goals simp [withdrawCallReceivers_legacy, withdrawCallReceivers_4626,
      withdrawCallReceivers_read, hrw] at hr
    all_goals exact hr

/-- Claim C10, witness: a malformed deposit receiver and an absent
withdraw receiver are both replaced by the owner in every issued call. -/
theorem receiver_defaults_to_owner_witness :
    (∀ r ∈ (onDeposit badReceiverDepositArgs baseDepositEnv false).calls.flatMap
        depositCallReceivers, r = badReceiverDepositArgs.owner) ∧
    (∀ r ∈ (onWithdraw zeroToleranceWithdrawArgs baseWithdrawEnv false).calls.flatMap
        withdrawCallReceivers, r = zeroToleranceWithdrawArgs.owner) :=
  receiver_defaults_to_owner badReceiverDepositArgs baseDepositEnv false
    zeroToleranceWithdrawArgs baseWithdrawEnv false (by decide) (by decide)
